import Mathlib

/-!
Shallow embedding of the contact-form edge worker (`src/index.ts`) of the
wrk-wanya.me repository, together with theorems settling the frozen claims
about its specification.

Modelling conventions:
* JavaScript runtime values that may flow through the untyped payload are
  modelled by `JsVal` (null, string, number, boolean, plain object).
  `undefined` is modelled by `Option.none` at the field level.
* JS numbers are modelled as `Int` (all numbers appearing here are integral).
* `String.prototype.trim` and `String.prototype.split(',')` are modelled by
  explicit `List Char` recursions (`trimChars`, `splitComma`) so that they
  compute by kernel reduction; JS whitespace is modelled by
  `Char.isWhitespace` (space, tab, CR, LF).
* JS `string.length` counts UTF-16 code units; `utf16Length` models this
  exactly (astral code points count 2).
* Fallible JS code (a `throw` / rejected promise) is modelled by
  `Except String`.
* The two outbound `fetch` calls are modelled by passing the response the
  external service would produce as an explicit argument; `Response.ok` is
  the Fetch-standard `200 ≤ status ≤ 299`.
-/

namespace CW

/-- A JavaScript runtime value as it may appear in a parsed JSON payload
field. `undefined` is represented by `Option.none` one level up. -/
inductive JsVal where
  | null
  | str (s : String)
  | num (n : Int)
  | bool (b : Bool)
  | obj
  deriving DecidableEq

/-- JS truthiness of a `JsVal` (`Boolean(v)`). -/
def JsVal.truthy : JsVal → Bool
  | .null => false
  | .str s => s ≠ ""
  | .num n => n ≠ 0
  | .bool b => b
  | .obj => true

/-- JS string conversion, as performed by template-literal interpolation.
For a plain object this is `"[object Object]"`. -/
def JsVal.jsToString : JsVal → String
  | .null => "null"
  | .str s => s
  | .num n => toString n
  | .bool b => if b then "true" else "false"
  | .obj => "[object Object]"

/-- The JS nullish-coalescing operator `v ?? d` applied to a possibly
absent (`undefined`, modelled `none`) or `null` field. -/
def nullishCoalesce (v : Option JsVal) (d : JsVal) : JsVal :=
  match v with
  | none => d
  | some .null => d
  | some x => x

/-- JS whitespace predicate used by `trim` (restricted to ASCII whitespace,
which is what the data of this worker can contain). -/
def isJsSpace (c : Char) : Bool := c.isWhitespace

/-- Drop leading and trailing whitespace from a character list. -/
def trimChars (cs : List Char) : List Char :=
  ((cs.dropWhile isJsSpace).reverse.dropWhile isJsSpace).reverse

/-- Model of `String.prototype.trim`. -/
def jsTrim (s : String) : String := String.mk (trimChars s.toList)

/-- Model of `string.length` in JS: the number of UTF-16 code units. -/
def utf16Length (s : String) : Nat :=
  (s.toList.map (fun c => if c.toNat < 65536 then 1 else 2)).sum

/-- Helper for `String.prototype.split(',')`: accumulates the current
segment (reversed) while scanning. -/
def splitCommaAux : List Char → List Char → List String
  | [], acc => [String.mk acc.reverse]
  | c :: cs, acc =>
    if c = ',' then String.mk acc.reverse :: splitCommaAux cs []
    else splitCommaAux cs (c :: acc)

/-- Model of `s.split(',')`; like in JS, `"".split(',')` is `[""]`. -/
def splitComma (s : String) : List String := splitCommaAux s.toList []

/-- The idiom `s.split(',').map((e) => e.trim()).filter(Boolean)` used for
both `TO_EMAIL` (in `sendResendEmail`) and `ALLOWED_ORIGINS` (in
`resolveAllowedOrigin`). -/
def splitTrimFilter (s : String) : List String :=
  ((splitComma s).map jsTrim).filter (fun e => e ≠ "")

/-- JS `s || d` for strings: `d` when `s` is empty (falsy), else `s`. -/
def strOr (s d : String) : String := if s = "" then d else s

/-- JS `v || '-'` for a `JsVal` (used for the `budget` field). -/
def jsOrDash (v : JsVal) : JsVal := if v.truthy then v else .str "-"

/-- Calling `.trim()` on a JS value: succeeds only on strings, otherwise
throws a `TypeError` (models `(payload.x ?? '').trim()` after coalescing). -/
def trimOrThrow : JsVal → Except String String
  | .str s => .ok (jsTrim s)
  | _ => .error "TypeError: trim is not a function"

/-- The worker environment (`Env` interface in `src/index.ts`); optional
bindings are `Option String`. -/
structure Env where
  RESEND_API_KEY : String
  FROM_EMAIL : String
  TO_EMAIL : String
  TURNSTILE_SECRET : String
  ALLOWED_ORIGINS : Option String
  SITE_NAME : Option String
  RESEND_DISABLED : Option String
  deriving DecidableEq

/-- The raw parsed JSON body, viewed through `Partial<ContactPayload>`:
each property is absent (`none`) or some runtime value. -/
structure RawPayload where
  name : Option JsVal
  email : Option JsVal
  phone : Option JsVal
  subject : Option JsVal
  budget : Option JsVal
  deadline : Option JsVal
  message : Option JsVal
  turnstileToken : Option JsVal
  deriving DecidableEq

/-- The sanitized `ContactPayload`. The trimmed fields are necessarily
strings after `sanitizePayload`; `subject`, `budget` and `turnstileToken`
are kept as-is by the sanitizer, so they remain arbitrary JS values. -/
structure ContactPayload where
  name : String
  email : String
  phone : String
  subject : JsVal
  budget : JsVal
  deadline : String
  message : String
  turnstileToken : JsVal
  deriving DecidableEq

/-- `sanitizePayload` from `src/index.ts`. Each trimmed field is
`(payload.x ?? '').trim()`, which throws if the field holds a non-nullish
non-string; `subject`, `budget`, `turnstileToken` are only coalesced.
The record-literal evaluation order in the source is name, email, phone,
subject, budget, deadline, message, turnstileToken; since the coalescing
fields never throw, evaluating the five trims in their source order
(name, email, phone, deadline, message) is observationally identical. -/
def sanitizePayload (raw : RawPayload) : Except String ContactPayload :=
  match trimOrThrow (nullishCoalesce raw.name (.str "")) with
  | .error e => .error e
  | .ok nameV =>
  match trimOrThrow (nullishCoalesce raw.email (.str "")) with
  | .error e => .error e
  | .ok emailV =>
  match trimOrThrow (nullishCoalesce raw.phone (.str "")) with
  | .error e => .error e
  | .ok phoneV =>
  match trimOrThrow (nullishCoalesce raw.deadline (.str "")) with
  | .error e => .error e
  | .ok deadlineV =>
  match trimOrThrow (nullishCoalesce raw.message (.str "")) with
  | .error e => .error e
  | .ok messageV =>
    .ok { name := nameV
          email := emailV
          phone := phoneV
          subject := nullishCoalesce raw.subject (.str "お問い合わせ")
          budget := nullishCoalesce raw.budget (.str "")
          deadline := deadlineV
          message := messageV
          turnstileToken := nullishCoalesce raw.turnstileToken (.str "") }

/-- Characters allowed by the class `[^\s@]` of the email regex. -/
def isAddrChar (c : Char) : Bool := !c.isWhitespace && c ≠ '@'

/-- Model of `emailRegex.test(s)` for
`/^[^\s@]+@[^\s@]+\.[^\s@]+$/`: the string must split as
`a ++ "@" ++ d` with `a` a nonempty run of `[^\s@]` characters and `d` a
nonempty run of `[^\s@]` characters containing a dot that is neither its
first nor its last character (so that `d = b ++ "." ++ c` with `b`, `c`
nonempty; `b` and `c` may themselves contain dots, as `[^\s@]` allows). -/
def emailRegexTest (s : String) : Bool :=
  let cs := s.toList
  match cs.findIdx? (· = '@') with
  | none => false
  | some i =>
    let a := cs.take i
    let d := cs.drop (i + 1)
    !a.isEmpty && a.all isAddrChar && d.all isAddrChar &&
      ((d.drop 1).dropLast.contains '.')

/-- Localized validation message for the name rule. -/
def nameError : String := "お名前は2文字以上で入力してください。"

/-- Localized validation message for the email rule. -/
def emailErrMsg : String := "メールアドレスの形式が正しくありません。"

/-- Localized validation message for the subject rule. -/
def subjectError : String := "件名を選択してください。"

/-- Localized validation message for the message rule. -/
def messageError : String := "メッセージは10文字以上で入力してください。"

/-- Localized validation message for the turnstile-token rule. -/
def tokenError : String := "検証トークンが取得できませんでした。"

/-- Localized body of the 502 delivery-failure response. -/
def resendFailError : String := "メール送信に失敗しました。時間をおいて再度お試しください。"

/-- `validatePayload` from `src/index.ts`: first violated rule wins. -/
def validatePayload (p : ContactPayload) : Option String :=
  if p.name = "" ∨ utf16Length p.name < 2 then some nameError
  else if p.email = "" ∨ ¬emailRegexTest p.email then some emailErrMsg
  else if ¬p.subject.truthy then some subjectError
  else if p.message = "" ∨ utf16Length p.message < 10 then some messageError
  else if ¬p.turnstileToken.truthy then some tokenError
  else none

/-- The response the Turnstile siteverify endpoint would produce: its HTTP
status and the looked-up `success` property of its parsed JSON body. A
missing property reads as `undefined`, which behaves exactly like any
other falsy `JsVal` under the `Boolean(result.success)` conversion the
code applies, so absence is represented by a falsy `successField`. -/
structure FetchResponse where
  status : Nat
  successField : JsVal
  deriving DecidableEq

/-- Fetch-standard `Response.ok`: status in the inclusive range 200-299. -/
def FetchResponse.ok (r : FetchResponse) : Bool := 200 ≤ r.status && r.status ≤ 299

/-- `verifyTurnstile` from `src/index.ts`. Throws when the secret is not
configured (falsy); returns `false` on a non-success HTTP status; otherwise
returns `Boolean(result.success)`. The token and IP are sent in the request
body and do not influence the local control flow. -/
def verifyTurnstile (token : JsVal) (secret : String) (ip : Option String)
    (resp : FetchResponse) : Except String Bool :=
  if secret = "" then .error "TURNSTILE_SECRET is not configured"
  else if !resp.ok then .ok false
  else .ok resp.successField.truthy

/-- The response of the Resend mail API: status and error-body text. -/
structure MailApiResponse where
  status : Nat
  bodyText : String
  deriving DecidableEq

/-- Fetch-standard `Response.ok` for the mail API response. -/
def MailApiResponse.ok (r : MailApiResponse) : Bool := 200 ≤ r.status && r.status ≤ 299

/-- The JSON body `sendResendEmail` posts to the mail API. -/
structure MailRequest where
  sendFrom : String
  sendTo : List String
  replyTo : String
  subject : String
  text : String
  html : String
  deriving DecidableEq

instance {ε α : Type} [DecidableEq ε] [DecidableEq α] : DecidableEq (Except ε α) := fun a b =>
  match a, b with
  | .ok x, .ok y => decidable_of_iff (x = y) (by simp)
  | .error x, .error y => decidable_of_iff (x = y) (by simp)
  | .ok _, .error _ => .isFalse (by intro h; cases h)
  | .error _, .ok _ => .isFalse (by intro h; cases h)

/-- Observable outcome of `sendResendEmail`: which request (if any) was
posted to the external mail endpoint, and the returned/thrown result. -/
structure MailDispatch where
  called : Option MailRequest
  result : Except String Unit
  deriving DecidableEq

/-- Replacement for one character under `/[&<>]/g`. -/
def escapeChar (c : Char) : String :=
  if c = '&' then "&amp;"
  else if c = '<' then "&lt;"
  else if c = '>' then "&gt;"
  else String.singleton c

/-- The `escape` helper of `buildHtmlBody`:
`value.replace(/[&<>]/g, (char) => ({...}[char] ?? char))`. -/
def escape (s : String) : String := String.join (s.toList.map escapeChar)

/-- The `row` helper of `buildHtmlBody`. -/
def row (label value : String) : String :=
  "<tr><th align=\"left\" style=\"padding:4px 8px;\">" ++ label ++
    "</th><td style=\"padding:4px 8px;\">" ++ escape value ++ "</td></tr>"

/-- `buildTextBody` from `src/index.ts`: the `join('\n')` of the source's
line array, written as one concatenation. -/
def buildTextBody (p : ContactPayload) : String :=
  "Name: " ++ p.name ++ "\n" ++
  "Email: " ++ p.email ++ "\n" ++
  "Phone: " ++ strOr p.phone "-" ++ "\n" ++
  "Subject: " ++ p.subject.jsToString ++ "\n" ++
  "Budget: " ++ (jsOrDash p.budget).jsToString ++ "\n" ++
  "Deadline: " ++ strOr p.deadline "-" ++ "\n" ++
  "\n" ++
  "Message:" ++ "\n" ++
  p.message

/-- The static template text of `buildHtmlBody` up to the first row,
including the escaped site name. -/
def htmlHead (env : Env) : String :=
  "<!doctype html>\n<html lang=\"ja\">\n  <body style=\"font-family:Segoe UI,Helvetica,Arial,sans-serif;background:#f6f6f7;padding:16px;\">\n    <table cellpadding=\"0\" cellspacing=\"0\" style=\"width:100%;max-width:600px;margin:auto;background:#ffffff;border-radius:8px;border:1px solid #e0e0e0;\">\n      <tr>\n        <td style=\"padding:16px 24px;border-bottom:1px solid #f0f0f0;\">\n          <strong>" ++
  escape (env.SITE_NAME.getD "WANYA Contact") ++
  "</strong>\n          <div style=\"color:#666;font-size:14px;margin-top:4px;\">新しいお問い合わせが届きました。</div>\n        </td>\n      </tr>\n      <tr>\n        <td>\n          <table style=\"width:100%;font-size:14px;\">\n            "

/-- The static template text of `buildHtmlBody` between the last row and
the escaped message (closing the rows table, opening the message block). -/
def htmlMid : String :=
  " \n          </table>\n          <div style=\"padding:16px 24px;border-top:1px solid #f0f0f0;\">\n            <div style=\"font-weight:600;margin-bottom:8px;\">メッセージ</div>\n            <div style=\"white-space:pre-wrap;line-height:1.6;color:#333;\">"

/-- The static template text of `buildHtmlBody` after the escaped message. -/
def htmlTail : String :=
  "</div>\n          </div>\n        </td>\n      </tr>\n    </table>\n  </body>\n</html>"

/-- `buildHtmlBody` from `src/index.ts`. The subject row passes
`payload.subject` and the budget row passes `payload.budget || '-'` to
`escape`, whose `.replace` call throws on a non-string; the other rows
receive strings. The template's source lines for the phone, budget and
deadline rows carry a trailing space before the newline. -/
def buildHtmlBody (p : ContactPayload) (env : Env) : Except String String :=
  match p.subject, jsOrDash p.budget with
  | .str subj, .str budv =>
    .ok (htmlHead env ++
      row "お名前" p.name ++ "\n            " ++
      row "メール" p.email ++ "\n            " ++
      row "電話" (strOr p.phone "-") ++ " \n            " ++
      row "件名" subj ++ "\n            " ++
      row "ご予算" budv ++ " \n            " ++
      row "希望納期" (strOr p.deadline "-") ++ htmlMid ++
      escape p.message ++ htmlTail)
  | _, _ => .error "TypeError: value.replace is not a function"

/-- `sendResendEmail` from `src/index.ts`, with the response the mail API
would produce passed explicitly. Returns which request (if any) was posted
to the external endpoint together with the function's own outcome. -/
def sendResendEmail (payload : ContactPayload) (env : Env)
    (api : MailApiResponse) : MailDispatch :=
  if env.RESEND_DISABLED = some "true" then ⟨none, .ok ()⟩
  else
    let toList := splitTrimFilter env.TO_EMAIL
    if toList.isEmpty then ⟨none, .error "TO_EMAIL is not configured"⟩
    else
      let subject := "[" ++ env.SITE_NAME.getD "WANYA" ++ "] " ++
        payload.subject.jsToString ++ " from " ++ payload.name
      let textBody := buildTextBody payload
      match buildHtmlBody payload env with
      | .error e => ⟨none, .error e⟩
      | .ok htmlBody =>
        let req : MailRequest :=
          ⟨env.FROM_EMAIL, toList, payload.email, subject, textBody, htmlBody⟩
        if api.ok then ⟨some req, .ok ()⟩
        else ⟨some req, .error ("Resend API error: " ++ toString api.status ++ " " ++ api.bodyText)⟩

/-- `resolveAllowedOrigin` from `src/index.ts`; a missing header or
binding is `none`, and the source's truthiness guard also treats the empty
string as absent. -/
def resolveAllowedOrigin (origin : Option String) (configured : Option String) :
    Option String :=
  match origin, configured with
  | some o, some cfg =>
    if o = "" ∨ cfg = "" then none
    else if (splitTrimFilter cfg).contains "*" then some o
    else if (splitTrimFilter cfg).contains o then some o
    else none
  | _, _ => none

/-- The CORS headers produced by `buildCorsHeaders`. -/
structure CorsHeaders where
  allowMethods : String
  allowHeaders : String
  allowOrigin : Option String
  vary : Option String
  deriving DecidableEq

/-- `buildCorsHeaders` from `src/index.ts`: the origin echo and the
`Vary: Origin` header are added only for a truthy origin. -/
def buildCorsHeaders (origin : Option String) : CorsHeaders :=
  match origin with
  | some o =>
    if o = "" then ⟨"POST, OPTIONS", "Content-Type", none, none⟩
    else ⟨"POST, OPTIONS", "Content-Type", some o, some "Origin"⟩
  | none => ⟨"POST, OPTIONS", "Content-Type", none, none⟩

/-- A worker response: status, the JSON envelope fields (absent for the
body-less 204), the content type, CORS headers, and an `Allow` header. -/
structure WResponse where
  status : Nat
  success : Option Bool
  error : Option String
  contentType : Option String
  cors : CorsHeaders
  allow : Option String
  deriving DecidableEq

/-- `buildCorsResponse` from `src/index.ts` (null body). -/
def buildCorsResponse (status : Nat) (origin : Option String) : WResponse :=
  ⟨status, none, none, none, buildCorsHeaders origin, none⟩

/-- `buildJsonResponse` from `src/index.ts`; the body is
`{success, error?}` and the extra headers are only ever an `Allow`. -/
def buildJsonResponse (status : Nat) (success : Bool) (error : Option String)
    (origin : Option String) (allow : Option String) : WResponse :=
  ⟨status, some success, error, some "application/json",
    buildCorsHeaders origin, allow⟩

/-- An incoming request as the handler observes it: method, path, the
`Origin` and `CF-Connecting-IP` headers, and the outcome of
`request.json()` viewed through `Partial<ContactPayload>` (a body that is
not valid JSON, or a `null` body on which property access throws inside
the same `try`, is `.error`). -/
structure WorkerRequest where
  method : String
  pathname : String
  origin : Option String
  cfConnectingIP : Option String
  body : Except String RawPayload
  deriving DecidableEq

/-- The result of one handler invocation: a response, or an uncaught
exception escaping `fetch` (surfacing as a generic runtime error). -/
inductive HandlerResult where
  | resp (r : WResponse)
  | fatal (msg : String)
  deriving DecidableEq

/-- The `fetch` handler of `src/index.ts`. The responses the two external
services would produce are passed explicitly (`ts` for Turnstile, `mail`
for the Resend API). The `try` around `request.json()`/`sanitizePayload`
maps any throw there to 400; the `try` around `sendResendEmail` maps any
throw there to 502; `verifyTurnstile` is called outside any `try`, so its
throw is fatal. -/
def workerFetch (req : WorkerRequest) (env : Env) (ts : FetchResponse)
    (mail : MailApiResponse) : HandlerResult :=
  let allowedOrigin := resolveAllowedOrigin req.origin env.ALLOWED_ORIGINS
  if req.method = "OPTIONS" then .resp (buildCorsResponse 204 allowedOrigin)
  else if req.pathname ≠ "/api/contact" then
    .resp (buildJsonResponse 404 false (some "Not found") allowedOrigin none)
  else if req.method ≠ "POST" then
    .resp (buildJsonResponse 405 false (some "Method not allowed") allowedOrigin (some "POST, OPTIONS"))
  else
    match req.body with
    | .error _ => .resp (buildJsonResponse 400 false (some "Invalid JSON payload") allowedOrigin none)
    | .ok raw =>
      match sanitizePayload raw with
      | .error _ => .resp (buildJsonResponse 400 false (some "Invalid JSON payload") allowedOrigin none)
      | .ok payload =>
        match validatePayload payload with
        | some msg => .resp (buildJsonResponse 422 false (some msg) allowedOrigin none)
        | none =>
          match verifyTurnstile payload.turnstileToken env.TURNSTILE_SECRET req.cfConnectingIP ts with
          | .error e => .fatal e
          | .ok false => .resp (buildJsonResponse 403 false (some "Bot verification failed") allowedOrigin none)
          | .ok true =>
            match (sendResendEmail payload env mail).result with
            | .ok _ => .resp (buildJsonResponse 200 true none allowedOrigin none)
            | .error _ => .resp (buildJsonResponse 502 false (some resendFailError) allowedOrigin none)

/-- `ContainsStr s t`: `t` occurs as a contiguous substring of `s`. -/
def ContainsStr (s t : String) : Prop := t.toList <:+: s.toList

/-- A JS value on which calling `.trim()` throws: neither a string nor a
nullish value (nullish values are replaced by `''` before the call). -/
def trimThrows : JsVal → Bool
  | .null => false
  | .str _ => false
  | _ => true

/-- A raw payload field whose sanitization throws: present, non-null, and
not a string. -/
def badTrimmedField : Option JsVal → Bool
  | some x => trimThrows x
  | none => false

/-- A concrete well-formed raw payload (mirrors the repository's test). -/
def rawEx : RawPayload :=
  { name := some (.str " テスト ")
    email := some (.str "user@example.com")
    phone := some (.str "")
    subject := some (.str "テスト送信")
    budget := some (.str "")
    deadline := none
    message := some (.str "これはローカルテストです。")
    turnstileToken := some (.str "tok") }

/-- The sanitized form of `rawEx`. -/
def pEx : ContactPayload :=
  { name := "テスト", email := "user@example.com", phone := ""
    subject := .str "テスト送信", budget := .str "", deadline := ""
    message := "これはローカルテストです。", turnstileToken := .str "tok" }

/-- A fully configured environment with delivery disabled. -/
def envEx : Env :=
  { RESEND_API_KEY := "key", FROM_EMAIL := "contact@example.com"
    TO_EMAIL := "owner@example.com", TURNSTILE_SECRET := "secret"
    ALLOWED_ORIGINS := some "https://test.local", SITE_NAME := some "Test"
    RESEND_DISABLED := some "true" }

/-- `envEx` with an empty recipient binding and delivery enabled. -/
def envBad : Env :=
  { envEx with TO_EMAIL := "", RESEND_DISABLED := none }

/-- `envEx` with delivery enabled. -/
def envMail : Env :=
  { envEx with RESEND_DISABLED := none }

/-- A concrete valid POST request to the contact path carrying `rawEx`. -/
def reqEx : WorkerRequest :=
  { method := "POST", pathname := "/api/contact"
    origin := some "https://test.local"
    cfConnectingIP := some "127.0.0.1", body := .ok rawEx }

/-- A GET request to a non-contact path. -/
def reqGet : WorkerRequest :=
  { reqEx with method := "GET", pathname := "/foo" }

/-- `rawEx` with a numeric `name` field. -/
def rawNum : RawPayload :=
  { rawEx with name := some (.num 5) }

/-- `reqEx` carrying `rawNum`. -/
def reqNum : WorkerRequest :=
  { reqEx with body := .ok rawNum }

/-- `rawEx` with an untrimmed `turnstileToken`. -/
def rawTok : RawPayload :=
  { rawEx with turnstileToken := some (.str " x ") }

/-- A passing Turnstile response. -/
def tsOk : FetchResponse := ⟨200, .bool true⟩

/-- A Turnstile response with a non-success HTTP status. -/
def tsBad : FetchResponse := ⟨500, .bool true⟩

/-- A successful mail API response. -/
def mailOk : MailApiResponse := ⟨200, "ok"⟩

/-- A failing mail API response. -/
def mailBad : MailApiResponse := ⟨500, "boom"⟩

theorem toList_append (a b : String) : (a ++ b).toList = a.toList ++ b.toList := by
  simp [String.toList]

theorem containsStr_self (t : String) : ContainsStr t t := List.infix_refl _

theorem containsStr_appendL (s t u : String) (h : ContainsStr t u) :
    ContainsStr (s ++ t) u := by
  unfold ContainsStr at h ⊢
  rw [toList_append]
  exact h.trans (List.suffix_append _ _).isInfix

theorem containsStr_appendR (s t u : String) (h : ContainsStr s u) :
    ContainsStr (s ++ t) u := by
  unfold ContainsStr at h ⊢
  rw [toList_append]
  exact h.trans (List.prefix_append _ _).isInfix

/-- C10: for every request whose method is not OPTIONS and whose path is
not the contact path, the response is 404 regardless of method, because
the path check precedes the method check. -/
theorem claimC10 (req : WorkerRequest) (env : Env) (ts : FetchResponse)
    (mail : MailApiResponse)
    (hm : req.method ≠ "OPTIONS") (hp : req.pathname ≠ "/api/contact") :
    workerFetch req env ts mail =
      .resp (buildJsonResponse 404 false (some "Not found")
        (resolveAllowedOrigin req.origin env.ALLOWED_ORIGINS) none) := by
  unfold workerFetch
  rw [if_neg hm, if_pos hp]

/-- Witness for C10: a GET request to a non-contact path yields 404
(not 405). -/
theorem claimC10Witness :
    workerFetch reqGet envEx tsOk mailOk =
      .resp (buildJsonResponse 404 false (some "Not found")
        (resolveAllowedOrigin reqGet.origin envEx.ALLOWED_ORIGINS) none) :=
  claimC10 reqGet envEx tsOk mailOk (by decide) (by decide)

/-- The resolver never echoes the empty string. -/
theorem resolveAllowedOrigin_ne_empty (origin configured : Option String) :
    resolveAllowedOrigin origin configured ≠ some "" := by
  unfold resolveAllowedOrigin
  match origin, configured with
  | none, _ => simp
  | some o, none => simp
  | some o, some cfg =>
    by_cases h : o = "" ∨ cfg = ""
    · simp [h]
    · push_neg at h
      simp only [h.1, h.2, false_or, if_false]
      split_ifs <;> simp_all

/-- C5: an origin is echoed exactly when the `Origin` header and the
allow-list binding are present and non-empty and the comma-split, trimmed
allow-list contains the wildcard or contains the origin literally; the
echoed value is the request's origin verbatim, and `Vary: Origin` is
emitted exactly when an origin is echoed. (The code's truthiness guard
treats an empty-string header or binding as absent.) -/
theorem claimC5 (origin configured : Option String) :
    (∀ x, resolveAllowedOrigin origin configured = some x ↔
      (origin = some x ∧ x ≠ "" ∧ ∃ cfg, configured = some cfg ∧ cfg ≠ "" ∧
        ((splitTrimFilter cfg).contains "*" = true ∨
          (splitTrimFilter cfg).contains x = true))) ∧
    (buildCorsHeaders (resolveAllowedOrigin origin configured)).allowOrigin =
      resolveAllowedOrigin origin configured ∧
    ((buildCorsHeaders (resolveAllowedOrigin origin configured)).vary = some "Origin" ↔
      (resolveAllowedOrigin origin configured).isSome = true) := by
  refine ⟨?_, ?_, ?_⟩
  · intro x
    match origin, configured with
    | none, _ => simp [resolveAllowedOrigin]
    | some o, none => simp [resolveAllowedOrigin]
    | some o, some cfg =>
      simp only [resolveAllowedOrigin]
      by_cases h : o = "" ∨ cfg = ""
      · rw [if_pos h]
        constructor
        · intro hh; exact absurd hh (by simp)
        · rintro ⟨hx, hxne, cfg', hcfg', hcfgne, _⟩
          injection hx with hx
          injection hcfg' with hcfg'
          rcases h with h | h
          · exact (hxne (hx ▸ h)).elim
          · exact (hcfgne (hcfg' ▸ h)).elim
      · push_neg at h
        rw [if_neg (not_or.mpr ⟨h.1, h.2⟩)]
        split_ifs with h1 h2
        · constructor
          · intro hx
            injection hx with hx
            subst hx
            exact ⟨rfl, h.1, cfg, rfl, h.2, Or.inl h1⟩
          · rintro ⟨hx, _⟩
            exact hx
        · constructor
          · intro hx
            injection hx with hx
            subst hx
            exact ⟨rfl, h.1, cfg, rfl, h.2, Or.inr h2⟩
          · rintro ⟨hx, _⟩
            exact hx
        · constructor
          · intro hh; exact absurd hh (by simp)
          · rintro ⟨hx, hxne, cfg', hcfg', hcfgne, hor⟩
            injection hx with hx
            injection hcfg' with hcfg'
            subst hx
            subst hcfg'
            rcases hor with hor | hor
            · exact absurd hor h1
            · exact absurd hor h2
  · have hne := resolveAllowedOrigin_ne_empty origin configured
    cases hr : resolveAllowedOrigin origin configured with
    | none => simp [buildCorsHeaders]
    | some o =>
      rw [hr] at hne
      have ho : o ≠ "" := fun he => hne (by rw [he])
      simp [buildCorsHeaders, ho]
  · have hne := resolveAllowedOrigin_ne_empty origin configured
    cases hr : resolveAllowedOrigin origin configured with
    | none => simp [buildCorsHeaders]
    | some o =>
      rw [hr] at hne
      have ho : o ≠ "" := fun he => hne (by rw [he])
      simp [buildCorsHeaders, ho]

/-- C1: on a sanitized submission (whose `subject` and `turnstileToken`
are strings), the validator returns the localized message of the first
violated rule in the fixed order name (non-empty and length at least 2),
email (non-empty and matching the address pattern), subject (non-empty),
message (non-empty and length at least 10), turnstileToken (non-empty),
and returns no error exactly when all five rules hold; the five messages
are pairwise distinct, so a later rule's message is never returned when
an earlier rule fails. -/
theorem claimC1 (p : ContactPayload) (subj tok : String)
    (hs : p.subject = .str subj) (ht : p.turnstileToken = .str tok) :
    validatePayload p =
      (if ¬(p.name ≠ "" ∧ 2 ≤ utf16Length p.name) then some nameError
       else if ¬(p.email ≠ "" ∧ emailRegexTest p.email = true) then some emailErrMsg
       else if subj = "" then some subjectError
       else if ¬(p.message ≠ "" ∧ 10 ≤ utf16Length p.message) then some messageError
       else if tok = "" then some tokenError
       else none) ∧
    [nameError, emailErrMsg, subjectError, messageError, tokenError].Nodup := by
  constructor
  · unfold validatePayload
    rw [hs, ht]
    simp only [JsVal.truthy, decide_eq_true_eq, ← Nat.not_le]
    split_ifs <;> first | rfl | tauto
  · decide

/-- Witness for C1: a concrete valid submission validates to `none`, and
its truncation to a one-character name yields the name message. -/
theorem claimC1Witness :
    (validatePayload pEx =
      (if ¬(pEx.name ≠ "" ∧ 2 ≤ utf16Length pEx.name) then some nameError
       else if ¬(pEx.email ≠ "" ∧ emailRegexTest pEx.email = true) then some emailErrMsg
       else if "テスト送信" = "" then some subjectError
       else if ¬(pEx.message ≠ "" ∧ 10 ≤ utf16Length pEx.message) then some messageError
       else if "tok" = "" then some tokenError
       else none) ∧
     [nameError, emailErrMsg, subjectError, messageError, tokenError].Nodup) ∧
    validatePayload pEx = none :=
  ⟨claimC1 pEx "テスト送信" "tok" rfl rfl, by decide⟩

/-- With a configured secret, `verifyTurnstile` never throws and its
verdict is the conjunction of HTTP success and body-field truthiness. -/
theorem verifyTurnstile_ok (token : JsVal) (secret : String) (ip : Option String)
    (resp : FetchResponse) (hsec : secret ≠ "") :
    verifyTurnstile token secret ip resp = .ok (resp.ok && resp.successField.truthy) := by
  unfold verifyTurnstile
  rw [if_neg hsec]
  cases h : resp.ok <;> simp [h]

/-- Pipeline reduction: a POST to the contact path that parses, sanitizes,
validates and passes bot verification reduces to the mail-dispatch match. -/
theorem workerFetch_dispatch (req : WorkerRequest) (env : Env) (ts : FetchResponse)
    (mail : MailApiResponse) (raw : RawPayload) (p : ContactPayload)
    (hm : req.method = "POST") (hp : req.pathname = "/api/contact")
    (hb : req.body = .ok raw) (hsan : sanitizePayload raw = .ok p)
    (hval : validatePayload p = none)
    (hsec : env.TURNSTILE_SECRET ≠ "") (hts : ts.ok = true)
    (hsucc : ts.successField.truthy = true) :
    workerFetch req env ts mail =
      match (sendResendEmail p env mail).result with
      | .ok _ => .resp (buildJsonResponse 200 true none
          (resolveAllowedOrigin req.origin env.ALLOWED_ORIGINS) none)
      | .error _ => .resp (buildJsonResponse 502 false (some resendFailError)
          (resolveAllowedOrigin req.origin env.ALLOWED_ORIGINS) none) := by
  have hv : verifyTurnstile p.turnstileToken env.TURNSTILE_SECRET req.cfConnectingIP ts = .ok true := by
    rw [verifyTurnstile_ok _ _ _ _ hsec, hts, hsucc]
    rfl
  unfold workerFetch
  rw [hm, hp, hb]
  rw [if_neg (by decide), if_neg (by decide), if_neg (by decide)]
  simp only [hsan, hval, hv]

/-- C4: with a configured secret, the verifier never throws; a non-success
HTTP status yields a `false` verdict, a missing/falsy `success` field
yields a `false` verdict, the verdict is `true` exactly when the HTTP
status is a success and the `success` field is truthy, and every `false`
verdict on an otherwise valid submission produces the 403
bot-verification-failed response. -/
theorem claimC4 (secret : String) (token : JsVal) (ip : Option String)
    (resp : FetchResponse) (hsec : secret ≠ "") :
    verifyTurnstile token secret ip resp = .ok (resp.ok && resp.successField.truthy) ∧
    (verifyTurnstile token secret ip resp = .ok true ↔
      resp.ok = true ∧ resp.successField.truthy = true) ∧
    (∀ (req : WorkerRequest) (env : Env) (raw : RawPayload) (p : ContactPayload)
        (mail : MailApiResponse),
      req.method = "POST" → req.pathname = "/api/contact" →
      req.body = .ok raw → sanitizePayload raw = .ok p →
      validatePayload p = none →
      env.TURNSTILE_SECRET = secret → p.turnstileToken = token →
      req.cfConnectingIP = ip →
      (resp.ok && resp.successField.truthy) = false →
      workerFetch req env resp mail =
        .resp (buildJsonResponse 403 false (some "Bot verification failed")
          (resolveAllowedOrigin req.origin env.ALLOWED_ORIGINS) none)) := by
  refine ⟨verifyTurnstile_ok _ _ _ _ hsec, ?_, ?_⟩
  · rw [verifyTurnstile_ok _ _ _ _ hsec]
    constructor
    · intro h
      injection h with h
      simpa using h
    · rintro ⟨h1, h2⟩
      rw [h1, h2]
      rfl
  · intro req env raw p mail hm hp hb hsan hval hes htok hip hfalse
    have hv : verifyTurnstile p.turnstileToken env.TURNSTILE_SECRET req.cfConnectingIP resp = .ok false := by
      rw [hes, htok, hip, verifyTurnstile_ok _ _ _ _ hsec, hfalse]
    unfold workerFetch
    rw [hm, hp, hb]
    rw [if_neg (by decide), if_neg (by decide), if_neg (by decide)]
    simp only [hsan, hval, hv]

/-- Witness for C4: a siteverify response with HTTP status 500 makes the
handler reject the concrete valid submission with 403. -/
theorem claimC4Witness :
    workerFetch reqEx envEx tsBad mailOk =
      .resp (buildJsonResponse 403 false (some "Bot verification failed")
        (resolveAllowedOrigin reqEx.origin envEx.ALLOWED_ORIGINS) none) :=
  (claimC4 "secret" (.str "tok") (some "127.0.0.1") tsBad (by decide)).2.2
    reqEx envEx rawEx pEx mailOk rfl rfl rfl (by decide) (by decide) rfl rfl rfl (by decide)

/-- C6: with the delivery-disabled flag set, a valid, human-verified
submission yields 200 `{success: true}` and the dispatcher returns
without posting anything to the external mail endpoint. -/
theorem claimC6 (req : WorkerRequest) (env : Env) (ts : FetchResponse)
    (mail : MailApiResponse) (raw : RawPayload) (p : ContactPayload)
    (hm : req.method = "POST") (hp : req.pathname = "/api/contact")
    (hb : req.body = .ok raw) (hsan : sanitizePayload raw = .ok p)
    (hval : validatePayload p = none)
    (hsec : env.TURNSTILE_SECRET ≠ "") (hts : ts.ok = true)
    (hsucc : ts.successField.truthy = true)
    (hdis : env.RESEND_DISABLED = some "true") :
    sendResendEmail p env mail = ⟨none, .ok ()⟩ ∧
    workerFetch req env ts mail =
      .resp (buildJsonResponse 200 true none
        (resolveAllowedOrigin req.origin env.ALLOWED_ORIGINS) none) := by
  have hd : sendResendEmail p env mail = ⟨none, .ok ()⟩ := by
    unfold sendResendEmail
    rw [if_pos hdis]
  refine ⟨hd, ?_⟩
  rw [workerFetch_dispatch req env ts mail raw p hm hp hb hsan hval hsec hts hsucc, hd]

/-- Witness for C6: the concrete valid submission under `envEx` (which has
`RESEND_DISABLED = "true"`) is accepted without any mail API call. -/
theorem claimC6Witness :
    sendResendEmail pEx envEx mailOk = ⟨none, .ok ()⟩ ∧
    workerFetch reqEx envEx tsOk mailOk =
      .resp (buildJsonResponse 200 true none
        (resolveAllowedOrigin reqEx.origin envEx.ALLOWED_ORIGINS) none) :=
  claimC6 reqEx envEx tsOk mailOk rawEx pEx rfl rfl rfl (by decide) (by decide)
    (by decide) (by decide) (by decide) rfl

/-- Counterexample for C2: with an empty recipient binding (and delivery
enabled), a valid, verified submission does not surface as an uncaught
fatal error — the `try` around `sendResendEmail` catches the configuration
throw and the handler returns the per-request 502 delivery-failure
response. -/
theorem claimC2Cex :
    splitTrimFilter envBad.TO_EMAIL = [] ∧
    workerFetch reqEx envBad tsOk mailOk =
      .resp (buildJsonResponse 502 false (some resendFailError)
        (some "https://test.local") none) := by decide

/-- C2 (amended): if the recipient string splits to an empty list and
delivery is enabled, dispatch throws the configuration error without
calling the mail endpoint, and the handler catches it, returning the
per-request 502 delivery-failure response rather than failing fatally. -/
theorem claimC2 (req : WorkerRequest) (env : Env) (ts : FetchResponse)
    (mail : MailApiResponse) (raw : RawPayload) (p : ContactPayload)
    (hm : req.method = "POST") (hp : req.pathname = "/api/contact")
    (hb : req.body = .ok raw) (hsan : sanitizePayload raw = .ok p)
    (hval : validatePayload p = none)
    (hsec : env.TURNSTILE_SECRET ≠ "") (hts : ts.ok = true)
    (hsucc : ts.successField.truthy = true)
    (hdis : env.RESEND_DISABLED ≠ some "true")
    (hto : splitTrimFilter env.TO_EMAIL = []) :
    sendResendEmail p env mail = ⟨none, .error "TO_EMAIL is not configured"⟩ ∧
    workerFetch req env ts mail =
      .resp (buildJsonResponse 502 false (some resendFailError)
        (resolveAllowedOrigin req.origin env.ALLOWED_ORIGINS) none) := by
  have hd : sendResendEmail p env mail = ⟨none, .error "TO_EMAIL is not configured"⟩ := by
    unfold sendResendEmail
    rw [if_neg hdis]
    simp [hto]
  refine ⟨hd, ?_⟩
  rw [workerFetch_dispatch req env ts mail raw p hm hp hb hsan hval hsec hts hsucc, hd]

/-- Witness for C2 (amended): the concrete valid submission under
`envBad` (empty `TO_EMAIL`, delivery enabled). -/
theorem claimC2Witness :
    sendResendEmail pEx envBad mailOk = ⟨none, .error "TO_EMAIL is not configured"⟩ ∧
    workerFetch reqEx envBad tsOk mailOk =
      .resp (buildJsonResponse 502 false (some resendFailError)
        (resolveAllowedOrigin reqEx.origin envBad.ALLOWED_ORIGINS) none) :=
  claimC2 reqEx envBad tsOk mailOk rawEx pEx rfl rfl rfl (by decide) (by decide)
    (by decide) (by decide) (by decide) (by decide) (by decide)

/-- `jsOrDash` on a string is the string-or-dash default. -/
theorem jsOrDash_str (s : String) : jsOrDash (.str s) = .str (strOr s "-") := by
  unfold jsOrDash JsVal.truthy strOr
  by_cases h : s = "" <;> simp [h]

/-- `buildHtmlBody` on a payload whose subject and budget are strings
succeeds with the explicit template instantiation. -/
theorem buildHtmlBody_str (p : ContactPayload) (env : Env) (subj bud : String)
    (hs : p.subject = .str subj) (hb : p.budget = .str bud) :
    buildHtmlBody p env = .ok (htmlHead env ++
      row "お名前" p.name ++ "\n            " ++
      row "メール" p.email ++ "\n            " ++
      row "電話" (strOr p.phone "-") ++ " \n            " ++
      row "件名" subj ++ "\n            " ++
      row "ご予算" (strOr bud "-") ++ " \n            " ++
      row "希望納期" (strOr p.deadline "-") ++ htmlMid ++
      escape p.message ++ htmlTail) := by
  unfold buildHtmlBody
  rw [hs, hb, jsOrDash_str]

/-- C7: whenever mail dispatch fails, the handler returns 502 with the
fixed localized delivery-failure body `{success: false}` — an expression
independent of the mail API's status and body, so neither ever appears in
the client response; and a non-success mail API status does make dispatch
fail with the internal error that carries the status and body (which is
only thrown, not echoed). -/
theorem claimC7 (req : WorkerRequest) (env : Env) (ts : FetchResponse)
    (mail : MailApiResponse) (raw : RawPayload) (p : ContactPayload)
    (hm : req.method = "POST") (hp : req.pathname = "/api/contact")
    (hb : req.body = .ok raw) (hsan : sanitizePayload raw = .ok p)
    (hval : validatePayload p = none)
    (hsec : env.TURNSTILE_SECRET ≠ "") (hts : ts.ok = true)
    (hsucc : ts.successField.truthy = true) :
    (∀ e, (sendResendEmail p env mail).result = .error e →
      workerFetch req env ts mail =
        .resp (buildJsonResponse 502 false (some resendFailError)
          (resolveAllowedOrigin req.origin env.ALLOWED_ORIGINS) none)) ∧
    (∀ subj bud, env.RESEND_DISABLED ≠ some "true" →
      (splitTrimFilter env.TO_EMAIL).isEmpty = false →
      p.subject = .str subj → p.budget = .str bud →
      mail.ok = false →
      (sendResendEmail p env mail).result =
        .error ("Resend API error: " ++ toString mail.status ++ " " ++ mail.bodyText)) := by
  constructor
  · intro e he
    rw [workerFetch_dispatch req env ts mail raw p hm hp hb hsan hval hsec hts hsucc]
    simp only [he]
  · intro subj bud hdis hto hsubj hbud hmail
    have hh := buildHtmlBody_str p env subj bud hsubj hbud
    unfold sendResendEmail
    rw [if_neg hdis]
    simp only [hto, Bool.false_eq_true, if_false, hh, hmail]

/-- Witness for C7: the mail API answering 500 "boom" on the concrete
valid submission yields the fixed 502 response. -/
theorem claimC7Witness :
    (sendResendEmail pEx envMail mailBad).result =
      .error ("Resend API error: " ++ toString mailBad.status ++ " " ++ mailBad.bodyText) ∧
    workerFetch reqEx envMail tsOk mailBad =
      .resp (buildJsonResponse 502 false (some resendFailError)
        (resolveAllowedOrigin reqEx.origin envMail.ALLOWED_ORIGINS) none) := by
  have h := claimC7 reqEx envMail tsOk mailBad rawEx pEx rfl rfl rfl (by decide)
    (by decide) (by decide) (by decide) (by decide)
  have he := h.2 "テスト送信" "" (by decide) (by decide) rfl rfl (by decide)
  exact ⟨he, h.1 _ he⟩

/-- A successful `.trim()` call means the value was a string and the
result is its trim. -/
theorem trimOrThrow_ok {v : JsVal} {s : String} (h : trimOrThrow v = .ok s) :
    ∃ t, v = .str t ∧ s = jsTrim t := by
  cases v with
  | null => simp [trimOrThrow] at h
  | num n => simp [trimOrThrow] at h
  | bool b => simp [trimOrThrow] at h
  | obj => simp [trimOrThrow] at h
  | str t =>
    simp only [trimOrThrow, Except.ok.injEq] at h
    exact ⟨t, rfl, h.symm⟩

/-- Field characterization of a successful sanitization: the five trimmed
fields are the trims of their (coalesced) string inputs, `subject` is the
input with the localized default, `budget` and `turnstileToken` are the
inputs with empty-string defaults, all kept as-is. -/
theorem sanitize_ok_fields (raw : RawPayload) (p : ContactPayload)
    (h : sanitizePayload raw = .ok p) :
    (∃ s, nullishCoalesce raw.name (.str "") = .str s ∧ p.name = jsTrim s) ∧
    (∃ s, nullishCoalesce raw.email (.str "") = .str s ∧ p.email = jsTrim s) ∧
    (∃ s, nullishCoalesce raw.phone (.str "") = .str s ∧ p.phone = jsTrim s) ∧
    (∃ s, nullishCoalesce raw.deadline (.str "") = .str s ∧ p.deadline = jsTrim s) ∧
    (∃ s, nullishCoalesce raw.message (.str "") = .str s ∧ p.message = jsTrim s) ∧
    p.subject = nullishCoalesce raw.subject (.str "お問い合わせ") ∧
    p.budget = nullishCoalesce raw.budget (.str "") ∧
    p.turnstileToken = nullishCoalesce raw.turnstileToken (.str "") := by
  unfold sanitizePayload at h
  cases h1 : trimOrThrow (nullishCoalesce raw.name (.str "")) with
  | error e => simp only [h1] at h; exact Except.noConfusion h
  | ok v1 =>
  simp only [h1] at h
  cases h2 : trimOrThrow (nullishCoalesce raw.email (.str "")) with
  | error e => simp only [h2] at h; exact Except.noConfusion h
  | ok v2 =>
  simp only [h2] at h
  cases h3 : trimOrThrow (nullishCoalesce raw.phone (.str "")) with
  | error e => simp only [h3] at h; exact Except.noConfusion h
  | ok v3 =>
  simp only [h3] at h
  cases h4 : trimOrThrow (nullishCoalesce raw.deadline (.str "")) with
  | error e => simp only [h4] at h; exact Except.noConfusion h
  | ok v4 =>
  simp only [h4] at h
  cases h5 : trimOrThrow (nullishCoalesce raw.message (.str "")) with
  | error e => simp only [h5] at h; exact Except.noConfusion h
  | ok v5 =>
  simp only [h5, Except.ok.injEq] at h
  subst h
  obtain ⟨t1, e1, f1⟩ := trimOrThrow_ok h1
  obtain ⟨t2, e2, f2⟩ := trimOrThrow_ok h2
  obtain ⟨t3, e3, f3⟩ := trimOrThrow_ok h3
  obtain ⟨t4, e4, f4⟩ := trimOrThrow_ok h4
  obtain ⟨t5, e5, f5⟩ := trimOrThrow_ok h5
  exact ⟨⟨t1, e1, f1⟩, ⟨t2, e2, f2⟩, ⟨t3, e3, f3⟩, ⟨t4, e4, f4⟩, ⟨t5, e5, f5⟩,
    rfl, rfl, rfl⟩

/-- Counterexample for C3: sanitizing a payload whose `turnstileToken` is
`" x "` keeps the untrimmed string — the sanitizer never trims the token,
contradicting the claim that it is trimmed. -/
theorem claimC3Cex :
    (sanitizePayload rawTok).map ContactPayload.turnstileToken = .ok (.str " x ") ∧
    jsTrim " x " ≠ " x " := by decide

/-- C3 (amended): after sanitization, `name`, `email`, `phone`, `deadline`
and `message` are coerced strings that have been trimmed; `subject` is
kept as-is with the localized default, `budget` is kept as-is with the
empty-string default, and `turnstileToken` is likewise kept as-is with the
empty-string default — it is not trimmed. -/
theorem claimC3 (raw : RawPayload) (p : ContactPayload)
    (h : sanitizePayload raw = .ok p) :
    (∃ s, nullishCoalesce raw.name (.str "") = .str s ∧ p.name = jsTrim s) ∧
    (∃ s, nullishCoalesce raw.email (.str "") = .str s ∧ p.email = jsTrim s) ∧
    (∃ s, nullishCoalesce raw.phone (.str "") = .str s ∧ p.phone = jsTrim s) ∧
    (∃ s, nullishCoalesce raw.deadline (.str "") = .str s ∧ p.deadline = jsTrim s) ∧
    (∃ s, nullishCoalesce raw.message (.str "") = .str s ∧ p.message = jsTrim s) ∧
    p.subject = nullishCoalesce raw.subject (.str "お問い合わせ") ∧
    p.budget = nullishCoalesce raw.budget (.str "") ∧
    p.turnstileToken = nullishCoalesce raw.turnstileToken (.str "") :=
  sanitize_ok_fields raw p h

/-- Witness for C3 (amended): the concrete payload `rawEx`. -/
theorem claimC3Witness :
    (∃ s, nullishCoalesce rawEx.name (.str "") = .str s ∧ pEx.name = jsTrim s) ∧
    (∃ s, nullishCoalesce rawEx.email (.str "") = .str s ∧ pEx.email = jsTrim s) ∧
    (∃ s, nullishCoalesce rawEx.phone (.str "") = .str s ∧ pEx.phone = jsTrim s) ∧
    (∃ s, nullishCoalesce rawEx.deadline (.str "") = .str s ∧ pEx.deadline = jsTrim s) ∧
    (∃ s, nullishCoalesce rawEx.message (.str "") = .str s ∧ pEx.message = jsTrim s) ∧
    pEx.subject = nullishCoalesce rawEx.subject (.str "お問い合わせ") ∧
    pEx.budget = nullishCoalesce rawEx.budget (.str "") ∧
    pEx.turnstileToken = nullishCoalesce rawEx.turnstileToken (.str "") :=
  claimC3 rawEx pEx (by decide)

/-- A field whose sanitization would throw is never a coalesced string. -/
theorem badField_coalesce (v : Option JsVal) (h : badTrimmedField v = true)
    (d : JsVal) (s : String) : nullishCoalesce v d ≠ .str s := by
  match v with
  | none => simp [badTrimmedField] at h
  | some x => cases x <;> simp_all [badTrimmedField, trimThrows, nullishCoalesce]

/-- If any trimmed field of the raw payload holds a present, non-null,
non-string value, sanitization throws. -/
theorem sanitize_error (raw : RawPayload)
    (hbad : badTrimmedField raw.name = true ∨ badTrimmedField raw.email = true ∨
      badTrimmedField raw.phone = true ∨ badTrimmedField raw.deadline = true ∨
      badTrimmedField raw.message = true) :
    ∃ e, sanitizePayload raw = .error e := by
  cases hs : sanitizePayload raw with
  | error e => exact ⟨e, rfl⟩
  | ok p =>
    exfalso
    have hf := sanitize_ok_fields raw p hs
    rcases hbad with h | h | h | h | h
    · obtain ⟨s, e, _⟩ := hf.1
      exact badField_coalesce _ h _ s e
    · obtain ⟨s, e, _⟩ := hf.2.1
      exact badField_coalesce _ h _ s e
    · obtain ⟨s, e, _⟩ := hf.2.2.1
      exact badField_coalesce _ h _ s e
    · obtain ⟨s, e, _⟩ := hf.2.2.2.1
      exact badField_coalesce _ h _ s e
    · obtain ⟨s, e, _⟩ := hf.2.2.2.2.1
      exact badField_coalesce _ h _ s e

/-- C9: a syntactically valid JSON body whose `name`, `email`, `phone`,
`deadline` or `message` field holds a present non-string, non-null value
makes the sanitizer throw inside the same `try` as JSON parsing, so the
handler returns the 400 invalid-payload response, not a 422 validation
message. -/
theorem claimC9 (req : WorkerRequest) (env : Env) (ts : FetchResponse)
    (mail : MailApiResponse) (raw : RawPayload)
    (hm : req.method = "POST") (hp : req.pathname = "/api/contact")
    (hb : req.body = .ok raw)
    (hbad : badTrimmedField raw.name = true ∨ badTrimmedField raw.email = true ∨
      badTrimmedField raw.phone = true ∨ badTrimmedField raw.deadline = true ∨
      badTrimmedField raw.message = true) :
    (∃ e, sanitizePayload raw = .error e) ∧
    workerFetch req env ts mail =
      .resp (buildJsonResponse 400 false (some "Invalid JSON payload")
        (resolveAllowedOrigin req.origin env.ALLOWED_ORIGINS) none) := by
  obtain ⟨e, he⟩ := sanitize_error raw hbad
  refine ⟨⟨e, he⟩, ?_⟩
  unfold workerFetch
  rw [hm, hp, hb]
  rw [if_neg (by decide), if_neg (by decide), if_neg (by decide)]
  simp only [he]

/-- Witness for C9: a numeric `name` field yields the 400 response. -/
theorem claimC9Witness :
    (∃ e, sanitizePayload rawNum = .error e) ∧
    workerFetch reqNum envEx tsOk mailOk =
      .resp (buildJsonResponse 400 false (some "Invalid JSON payload")
        (resolveAllowedOrigin reqNum.origin envEx.ALLOWED_ORIGINS) none) :=
  claimC9 reqNum envEx tsOk mailOk rawNum rfl rfl rfl (by decide)

/-- The value cell of a table row contains the escaped value. -/
theorem row_contains (label value : String) :
    ContainsStr (row label value) (escape value) := by
  unfold row
  exact containsStr_appendR _ _ _ (containsStr_appendL _ _ _ (containsStr_self _))

/-- C8: the HTML body contains every user-supplied field escaped (the
optional fields after their dash default), the plain-text body contains
the fields verbatim, the escaper replaces exactly the characters `&`,
`<`, `>` by `&amp;`, `&lt;`, `&gt;` and leaves every other character
unchanged, and in particular `<script>` escapes to `&lt;script&gt;`. -/
theorem claimC8 (p : ContactPayload) (env : Env) (subj bud : String)
    (hs : p.subject = .str subj) (hb : p.budget = .str bud) :
    (∃ H, buildHtmlBody p env = .ok H ∧
      ContainsStr H (escape p.name) ∧
      ContainsStr H (escape p.email) ∧
      ContainsStr H (escape (strOr p.phone "-")) ∧
      ContainsStr H (escape subj) ∧
      ContainsStr H (escape (strOr bud "-")) ∧
      ContainsStr H (escape (strOr p.deadline "-")) ∧
      ContainsStr H (escape p.message)) ∧
    ContainsStr (buildTextBody p) p.name ∧
    ContainsStr (buildTextBody p) p.email ∧
    ContainsStr (buildTextBody p) subj ∧
    ContainsStr (buildTextBody p) p.message ∧
    (escapeChar '&' = "&amp;" ∧ escapeChar '<' = "&lt;" ∧ escapeChar '>' = "&gt;" ∧
      ∀ c, c ≠ '&' → c ≠ '<' → c ≠ '>' → escapeChar c = String.singleton c) ∧
    escape "<script>" = "&lt;script&gt;" := by
  refine ⟨⟨_, buildHtmlBody_str p env subj bud hs hb, ?_, ?_, ?_, ?_, ?_, ?_, ?_⟩,
    ?_, ?_, ?_, ?_, ⟨by decide, by decide, by decide, ?_⟩, by decide⟩
  · iterate 13 apply containsStr_appendR
    exact containsStr_appendL _ _ _ (row_contains _ _)
  · iterate 11 apply containsStr_appendR
    exact containsStr_appendL _ _ _ (row_contains _ _)
  · iterate 9 apply containsStr_appendR
    exact containsStr_appendL _ _ _ (row_contains _ _)
  · iterate 7 apply containsStr_appendR
    exact containsStr_appendL _ _ _ (row_contains _ _)
  · iterate 5 apply containsStr_appendR
    exact containsStr_appendL _ _ _ (row_contains _ _)
  · iterate 3 apply containsStr_appendR
    exact containsStr_appendL _ _ _ (row_contains _ _)
  · iterate 1 apply containsStr_appendR
    exact containsStr_appendL _ _ _ (containsStr_self _)
  · unfold buildTextBody
    iterate 20 apply containsStr_appendR
    exact containsStr_appendL _ _ _ (containsStr_self _)
  · unfold buildTextBody
    iterate 17 apply containsStr_appendR
    exact containsStr_appendL _ _ _ (containsStr_self _)
  · unfold buildTextBody
    rw [hs]
    simp only [JsVal.jsToString]
    iterate 11 apply containsStr_appendR
    exact containsStr_appendL _ _ _ (containsStr_self _)
  · unfold buildTextBody
    exact containsStr_appendL _ _ _ (containsStr_self _)
  · intro c h1 h2 h3
    unfold escapeChar
    rw [if_neg h1, if_neg h2, if_neg h3]

/-- Witness for C8: the concrete submission `pEx` under `envEx`. -/
theorem claimC8Witness :
    (∃ H, buildHtmlBody pEx envEx = .ok H ∧
      ContainsStr H (escape pEx.name) ∧
      ContainsStr H (escape pEx.email) ∧
      ContainsStr H (escape (strOr pEx.phone "-")) ∧
      ContainsStr H (escape "テスト送信") ∧
      ContainsStr H (escape (strOr "" "-")) ∧
      ContainsStr H (escape (strOr pEx.deadline "-")) ∧
      ContainsStr H (escape pEx.message)) ∧
    ContainsStr (buildTextBody pEx) pEx.name ∧
    ContainsStr (buildTextBody pEx) pEx.email ∧
    ContainsStr (buildTextBody pEx) "テスト送信" ∧
    ContainsStr (buildTextBody pEx) pEx.message ∧
    (escapeChar '&' = "&amp;" ∧ escapeChar '<' = "&lt;" ∧ escapeChar '>' = "&gt;" ∧
      ∀ c, c ≠ '&' → c ≠ '<' → c ≠ '>' → escapeChar c = String.singleton c) ∧
    escape "<script>" = "&lt;script&gt;" :=
  claimC8 pEx envEx "テスト送信" "" rfl rfl

end CW
